import Mathlib

/-!
Verification of the autonexus raw-material sourcing backend.

The definitions below are a shallow embedding of the Python sources under
backend/.  Python floats are modelled as rationals, Python dictionaries
holding optional fields as structures of `Option` fields, raised exceptions
as `Except`, and Python text as `List Char`.  Each definition names the
source function it embeds.
-/

namespace Autonexus

/-! ### Python numeric helpers

Python `round(x, n)` rounds half to even.  We model it over `ℚ`.
-/

/-- Round a rational to the nearest integer, ties going to the even integer
(the rounding used by Python's built-in `round`). -/
def roundHalfEven (y : ℚ) : ℤ :=
  let f := ⌊y⌋
  let frac := y - f
  if frac < 1/2 then f
  else if 1/2 < frac then f + 1
  else if f % 2 = 0 then f else f + 1

/-- Python `round(x, ndigits)` over rationals. -/
def pyRound (ndigits : ℕ) (x : ℚ) : ℚ :=
  (roundHalfEven (x * 10 ^ ndigits) : ℚ) / 10 ^ ndigits

theorem roundHalfEven_low {y : ℚ} {n : ℤ} (h1 : (n:ℚ) ≤ y) (h2 : y < n + 1/2) :
    roundHalfEven y = n := by
  have hf : ⌊y⌋ = n := by
    rw [Int.floor_eq_iff]
    exact ⟨h1, by linarith⟩
  simp only [roundHalfEven, hf]
  rw [if_pos (by linarith : y - (n:ℚ) < 1/2)]

theorem roundHalfEven_high {y : ℚ} {n : ℤ} (h1 : (n:ℚ) + 1/2 < y) (h2 : y < n + 1) :
    roundHalfEven y = n + 1 := by
  have hf : ⌊y⌋ = n := by
    rw [Int.floor_eq_iff]
    exact ⟨by linarith, by linarith⟩
  simp only [roundHalfEven, hf]
  rw [if_neg (by push_neg; linarith : ¬ (y - (n:ℚ) < 1/2)),
      if_pos (by linarith : (1:ℚ)/2 < y - n)]

theorem le_roundHalfEven {y : ℚ} {m : ℤ} (h : (m:ℚ) ≤ y) : m ≤ roundHalfEven y := by
  have hm : m ≤ ⌊y⌋ := Int.le_floor.mpr h
  simp only [roundHalfEven]
  split
  · exact hm
  · split
    · omega
    · split <;> omega

theorem roundHalfEven_le {y : ℚ} {m : ℤ} (h : y ≤ m) : roundHalfEven y ≤ m := by
  have hf : (⌊y⌋ : ℚ) ≤ y := Int.floor_le y
  have hm : ⌊y⌋ ≤ m := by exact_mod_cast hf.trans h
  simp only [roundHalfEven]
  split
  · exact hm
  · have hlt : ⌊y⌋ < m := by
      rename_i hcond
      push_neg at hcond
      by_contra hc
      push_neg at hc
      have : ⌊y⌋ = m := le_antisymm hm hc
      rw [this] at hcond
      linarith
    split
    · omega
    · split <;> omega

theorem pyRound_le {x : ℚ} {m : ℤ} (n : ℕ) (h : x ≤ m) : pyRound n x ≤ m := by
  have hpow : (0:ℚ) < 10 ^ n := by positivity
  have h1 : x * 10 ^ n ≤ (m * 10 ^ n : ℤ) := by
    push_cast
    exact mul_le_mul_of_nonneg_right h (le_of_lt hpow)
  have h2 := roundHalfEven_le h1
  rw [pyRound, div_le_iff₀ hpow]
  calc (roundHalfEven (x * 10 ^ n) : ℚ) ≤ ((m * 10 ^ n : ℤ) : ℚ) := by exact_mod_cast h2
    _ = m * 10 ^ n := by push_cast; ring

theorem le_pyRound {x : ℚ} {m : ℤ} (n : ℕ) (h : (m:ℚ) ≤ x) : (m:ℚ) ≤ pyRound n x := by
  have hpow : (0:ℚ) < 10 ^ n := by positivity
  have h1 : ((m * 10 ^ n : ℤ) : ℚ) ≤ x * 10 ^ n := by
    push_cast
    exact mul_le_mul_of_nonneg_right h (le_of_lt hpow)
  have h2 := le_roundHalfEven h1
  rw [pyRound, le_div_iff₀ hpow]
  calc (m:ℚ) * 10 ^ n = ((m * 10 ^ n : ℤ) : ℚ) := by push_cast; ring
    _ ≤ (roundHalfEven (x * 10 ^ n) : ℚ) := by exact_mod_cast h2

/-! ### Python string helpers -/

/-- Characters accepted by the whitespace class of Python's `str.strip`,
`str.split` and the regex class `\s` (ASCII fragment). -/
def pySpace (c : Char) : Bool :=
  c = ' ' || c = '\t' || c = '\n' || c = '\x0d' || c = '\x0b' || c = '\x0c'

/-- Python `str.lower` (ASCII fragment), applied characterwise. -/
def toLowerChars (cs : List Char) : List Char := cs.map Char.toLower

/-- Python substring membership `needle in hay`. -/
def hasSub (hay needle : List Char) : Bool :=
  needle.isPrefixOf hay ||
    match hay with
    | [] => false
    | _ :: t => hasSub t needle

/-- Python `str.strip()` over a character list. -/
def pyStripChars (cs : List Char) : List Char :=
  ((cs.dropWhile pySpace).reverse.dropWhile pySpace).reverse

/-- Python `str.strip()` on strings. -/
def pyStrip (s : String) : String := String.mk (pyStripChars s.data)

/-! ### ScoringEngine: weights, composite scores, ranking, confidence

Embeds `RawMaterialSourcingWorkflow._get_default_config` (the four weight
profiles), `_calculate_country_score`, the descending ranking sort of
`_generate_comprehensive_recommendations`, `_extract_best_country`, and
`LeaderAgent._calculate_confidence_level`.
-/

structure ScoringWeights where
  profitability : ℚ
  stability : ℚ
  eco_friendly : ℚ

/-- Weight profile chosen by `_get_default_config` from the declared
priority (workflow_orchestrator.py lines 100-126). -/
def defaultScoringWeights (priority : String) : ScoringWeights :=
  if priority = "profitability" then ⟨6/10, 2/10, 2/10⟩
  else if priority = "stability" then ⟨2/10, 6/10, 2/10⟩
  else if priority = "eco-friendly" then ⟨2/10, 2/10, 6/10⟩
  else ⟨4/10, 3/10, 3/10⟩

/-- One expert agent's result dictionary as consumed by the orchestrator:
`status`, optional `error`, optional `expert_score`. -/
structure ExpertResult where
  status : String := "success"
  error? : Option String := none
  expertScore? : Option ℚ := none

/-- Python `result.get("expert_score", 5.0)`. -/
def getExpertScore (r : ExpertResult) : ℚ := r.expertScore?.getD 5

/-- The `field_to_weight` lookup composed with the weight-dictionary lookup
inside `_calculate_country_score` (lines 657-666): the three expert fields
map to the weight keys, any other field name is looked up verbatim and only
matches when it already is a weight key. -/
def fieldToWeight (w : ScoringWeights) (field : String) : Option ℚ :=
  if field = "profitability" then some w.profitability
  else if field = "stability" then some w.stability
  else if field = "eco-friendly" then some w.eco_friendly
  else if field = "eco_friendly" then some w.eco_friendly
  else none

/-- Embeds `RawMaterialSourcingWorkflow._calculate_country_score`
(workflow_orchestrator.py lines 650-672): accumulate score·weight and
weight over the expert-results dictionary, then round the weighted mean to
two decimals (5.0 when no weight accumulated). -/
def calculateCountryScore (w : ScoringWeights) (results : List (String × ExpertResult)) : ℚ :=
  let acc := results.foldl
    (fun (acc : ℚ × ℚ) fr =>
      match fieldToWeight w fr.1 with
      | some wt => (acc.1 + getExpertScore fr.2 * wt, acc.2 + wt)
      | none => acc)
    (0, 0)
  pyRound 2 (if 0 < acc.2 then acc.1 / acc.2 else 5)

/-- Stable insertion of one element into a list sorted descending by `key`;
ties keep the earlier element first, as Python's stable `list.sort` does. -/
def insertByDesc (key : α → ℚ) (a : α) : List α → List α
  | [] => [a]
  | b :: t => if key b ≤ key a then a :: b :: t else b :: insertByDesc key a t

/-- Stable descending sort by `key`: the model of Python
`list.sort(key=..., reverse=True)` used on `country_rankings` in
`_generate_comprehensive_recommendations` (line 845). -/
def sortByDesc (key : α → ℚ) : List α → List α
  | [] => []
  | a :: t => insertByDesc key a (sortByDesc key t)

/-- A ranked country entry: name and the composite `overall_score`. -/
def rankCountries (rs : List (String × ℚ)) : List (String × ℚ) :=
  sortByDesc Prod.snd rs

/-- A country record carrying an optional `composite_score`, as produced by
`LeaderAgent.rank_countries` and consumed with `.get("composite_score", 0)`. -/
structure CountryEntry where
  country : String := "Unknown"
  compositeScore? : Option ℚ := none

/-- Python `entry.get("composite_score", 0)`. -/
def getCompositeScore (c : CountryEntry) : ℚ := c.compositeScore?.getD 0

/-- Embeds `LeaderAgent._calculate_confidence_level` (leader_agent.py lines
424-439): fewer than two rankings give MODERATE, otherwise the gap between
the best and the second composite score selects HIGH / MODERATE / LOW. -/
def calculateConfidenceLevel (best : CountryEntry) (allRankings : List CountryEntry) : String :=
  match allRankings with
  | _ :: second :: _ =>
      let gap := getCompositeScore best - getCompositeScore second
      if 1 ≤ gap then "HIGH"
      else if 1/2 ≤ gap then "MODERATE"
      else "LOW"
  | _ => "MODERATE"

/-- The leader agent's `final_recommendation` dictionary, as far as
`_extract_best_country` inspects it. -/
structure FinalRecommendation where
  recommendedCountry? : Option CountryEntry := none

/-- The leader agent's run-result dictionary, as far as the orchestrator
inspects it. -/
structure LeaderResult where
  status : String := "success"
  error? : Option String := none
  identifiedCountries : List String := []
  finalRecommendation? : Option FinalRecommendation := none

/-- Embeds `RawMaterialSourcingWorkflow._extract_best_country`
(workflow_orchestrator.py lines 528-537): take
`final_recommendation["recommended_country"]` when present, otherwise the
placeholder `{"country": "Unknown", "composite_score": 0.0}`. -/
def extractBestCountry (lr : LeaderResult) : CountryEntry :=
  match lr.finalRecommendation? with
  | some fr =>
      match fr.recommendedCountry? with
      | some c => c
      | none => { country := "Unknown", compositeScore? := some 0 }
  | none => { country := "Unknown", compositeScore? := some 0 }

/-- The failure dictionary returned by the outer `except` of
`RawMaterialSourcingWorkflow._analyze_country_experts`
(workflow_orchestrator.py lines 628-638): status failed and
`overall_score` fixed at 0.0. -/
structure CountryAnalysis where
  status : String
  error? : Option String := none
  country : String := ""
  rawMaterial : String := ""
  overallScore : ℚ
  expertScores : List (String × ℚ) := []

/-- The structured result `_analyze_country_experts` returns when expert
coordination itself raises (lines 628-638). -/
def countryExpertsFailureResult (e country rawMaterial : String) : CountryAnalysis :=
  { status := "failed", error? := some e, country := country,
    rawMaterial := rawMaterial, overallScore := 0, expertScores := [] }

/-! ### ExtractionEngine: numeric score extraction from free text

Embeds `ExpertAgent._extract_expert_score` (expert_agent.py lines 393-416)
and `ExpertAgent._sentiment_based_scoring` (lines 418-455).  The four
regular expressions are transcribed as deterministic scanners with the
backtracking preference order of Python's `re` module: a leftmost match is
searched position by position; the decimal token `\d+(?:\.\d+)?` offers its
alternatives greedily (longest digit runs first, fractional part before no
fractional part).
-/

/-- Split a character list into its maximal leading digit run and the rest. -/
def splitDigits : List Char → List Char × List Char
  | [] => ([], [])
  | c :: t =>
      if c.isDigit then
        let p := splitDigits t
        (c :: p.1, p.2)
      else ([], c :: t)

/-- All nonempty prefix/remainder splits of a list, longest prefix first:
the backtracking order of a greedy `\d+` on a digit run. -/
def splitsDesc : List Char → List (List Char × List Char)
  | [] => []
  | c :: t => ((splitsDesc t).map fun p => (c :: p.1, p.2)) ++ [([c], t)]

/-- Candidates for the optional fractional part `(?:\.\d+)?` after an
integer capture `di` with remainder `r`: greedy fractional captures first,
then the capture without a fractional part. -/
def fracCandidates (di : List Char) (r : List Char) : List (List Char × List Char) :=
  match r with
  | '.' :: r2 =>
      let p := splitDigits r2
      if p.1.isEmpty then [(di, r)]
      else ((splitsDesc p.1).map fun q => (di ++ '.' :: q.1, q.2 ++ p.2)) ++ [(di, r)]
  | _ => [(di, r)]

/-- All captures of `\d+(?:\.\d+)?` anchored at the head of `cs`, in the
preference order of Python's backtracking regex engine. -/
def numCandidates (cs : List Char) : List (List Char × List Char) :=
  let p := splitDigits cs
  (splitsDesc p.1).foldr (fun q acc => fracCandidates q.1 (q.2 ++ p.2) ++ acc) []

/-- Match a literal at the head of the input, returning the remainder. -/
def stripLit : List Char → List Char → Option (List Char)
  | [], cs => some cs
  | _ :: _, [] => none
  | l :: ls, c :: cs => if c = l then stripLit ls cs else none

/-- The regex character class `[:\s]`. -/
def colonOrSpace (c : Char) : Bool := c = ':' || pySpace c

/-- First successful application of `f` along a list. -/
def firstSome (f : α → Option β) : List α → Option β
  | [] => none
  | a :: t =>
      match f a with
      | some b => some b
      | none => firstSome f t

/-- Anchored matcher for the first score pattern of
`_extract_expert_score` (a "score" literal, then colons/whitespace, then a
decimal capture). -/
def matchScoreAt (cs : List Char) : Option (List Char) :=
  match stripLit "score".data cs with
  | none => none
  | some r1 =>
      match numCandidates (r1.dropWhile colonOrSpace) with
      | [] => none
      | cap :: _ => some cap.1

/-- Anchored matcher for the third pattern (a "rating" literal, then
colons/whitespace, then a decimal capture). -/
def matchRatingAt (cs : List Char) : Option (List Char) :=
  match stripLit "rating".data cs with
  | none => none
  | some r1 =>
      match numCandidates (r1.dropWhile colonOrSpace) with
      | [] => none
      | cap :: _ => some cap.1

/-- Continuation of the second pattern after the decimal capture:
whitespace, the alternation of an "out of" literal and a "/" literal (in
that order), whitespace, then a "10" literal. -/
def outOf10After (rest : List Char) : Bool :=
  let r2 := rest.dropWhile pySpace
  let sep :=
    match stripLit "out of".data r2 with
    | some r3 => some r3
    | none => stripLit "/".data r2
  match sep with
  | none => false
  | some r3 => (stripLit "10".data (r3.dropWhile pySpace)).isSome

/-- Anchored matcher for the second pattern (a decimal capture, then
" / 10" or " out of 10"). -/
def matchOutOf10At (cs : List Char) : Option (List Char) :=
  firstSome (fun cand => if outOf10After cand.2 then some cand.1 else none)
    (numCandidates cs)

/-- Continuation of the fourth pattern after the decimal capture:
whitespace then a "point" literal (the trailing "s" of "points?" is
optional and constrains nothing). -/
def pointAfter (rest : List Char) : Bool :=
  (stripLit "point".data (rest.dropWhile pySpace)).isSome

/-- Anchored matcher for the fourth pattern (a decimal capture followed by
"points" or "point"). -/
def matchPointsAt (cs : List Char) : Option (List Char) :=
  firstSome (fun cand => if pointAfter cand.2 then some cand.1 else none)
    (numCandidates cs)

/-- Leftmost capture of an anchored matcher: the capture of `matches[0]`
of `re.findall` for that pattern. -/
def findFirstCapture (patAt : List Char → Option (List Char)) : List Char → Option (List Char)
  | [] => patAt []
  | c :: t =>
      match patAt (c :: t) with
      | some cap => some cap
      | none => findFirstCapture patAt t

/-- Numeric value of a digit run. -/
def digitsToNat (ds : List Char) : ℕ :=
  ds.foldl (fun a c => 10 * a + (c.toNat - 48)) 0

/-- Python `float(capture)` for a capture of shape `digits[.digits]`. -/
def parseCapture (cap : List Char) : ℚ :=
  let p := splitDigits cap
  match p.2 with
  | '.' :: f => (digitsToNat p.1 : ℚ) + (digitsToNat f : ℚ) / 10 ^ f.length
  | _ => (digitsToNat p.1 : ℚ)

/-- One iteration of the pattern loop of `_extract_expert_score`: take the
pattern's first match, and accept it only when its value lies in [1, 10],
in which case the value is rounded to one decimal. -/
def scoreFromPattern (patAt : List Char → Option (List Char)) (low : List Char) : Option ℚ :=
  match findFirstCapture patAt low with
  | some cap =>
      let s := parseCapture cap
      if 1 ≤ s ∧ s ≤ 10 then some (pyRound 1 s) else none
  | none => none

/-- The positive lexicon of `_sentiment_based_scoring`. -/
def positiveWords : List String :=
  ["excellent", "outstanding", "strong", "good", "favorable", "positive",
   "competitive", "efficient", "sustainable", "stable", "reliable",
   "certified", "compliant", "profitable", "advantageous"]

/-- The negative lexicon of `_sentiment_based_scoring`. -/
def negativeWords : List String :=
  ["poor", "weak", "concerning", "risky", "unstable", "expensive",
   "problematic", "insufficient", "inadequate", "volatile", "uncertain",
   "non-compliant", "unsustainable", "unprofitable"]

/-- The neutral lexicon of `_sentiment_based_scoring`. -/
def neutralWords : List String :=
  ["moderate", "average", "acceptable", "standard", "typical",
   "manageable", "reasonable", "adequate"]

/-- Number of lexicon words occurring (as substrings) in the lowercased
text: Python `sum(1 for word in words if word in analysis_lower)`. -/
def countPresent (ws : List String) (low : List Char) : ℕ :=
  (ws.filter fun w => hasSub low w.data).length

/-- Embeds `ExpertAgent._sentiment_based_scoring` (expert_agent.py lines
418-455): count which lexicon words are present, pick a base of
7.0 + min(0.3·pos, 2.0) when positives outnumber negatives, of
4.0 − min(0.3·neg, 2.0) when negatives outnumber positives, and of
5.5 + 0.2·neutral on a tie; round to one decimal and clamp to [1, 10]. -/
def sentimentBasedScoring (analysis : String) : ℚ :=
  let low := toLowerChars analysis.data
  let p := countPresent positiveWords low
  let n := countPresent negativeWords low
  let ne := countPresent neutralWords low
  let base : ℚ :=
    if n < p then 7 + min ((p : ℚ) * (3/10)) 2
    else if p < n then 4 - min ((n : ℚ) * (3/10)) 2
    else 11/2 + (ne : ℚ) * (2/10)
  max 1 (min 10 (pyRound 1 base))

/-- Embeds `ExpertAgent._extract_expert_score` (expert_agent.py lines
393-416): try the four score patterns in order on the lowercased text,
keeping only the first match of each pattern; fall back to
sentiment-based scoring when no pattern yields an in-range first match. -/
def extractExpertScore (analysis : String) : ℚ :=
  let low := toLowerChars analysis.data
  match scoreFromPattern matchScoreAt low with
  | some v => v
  | none =>
      match scoreFromPattern matchOutOf10At low with
      | some v => v
      | none =>
          match scoreFromPattern matchRatingAt low with
          | some v => v
          | none =>
              match scoreFromPattern matchPointsAt low with
              | some v => v
              | none => sentimentBasedScoring analysis

/-- Net sentiment count of a text: positive presences minus negative
presences (used to state what the spec asserts about the fallback). -/
def netSentiment (t : String) : ℤ :=
  (countPresent positiveWords (toLowerChars t.data) : ℤ)
    - (countPresent negativeWords (toLowerChars t.data) : ℤ)

/-- The fallback heuristic as the amended claim describes it, as a function
of the three presence counts. -/
def sentimentHeuristicSpec (p n ne : ℕ) : ℚ :=
  let base : ℚ :=
    if n < p then 7 + min ((p : ℚ) * (3/10)) 2
    else if p < n then 4 - min ((n : ℚ) * (3/10)) 2
    else 11/2 + (ne : ℚ) * (2/10)
  max 1 (min 10 (pyRound 1 base))

/-! ### ToolGateway retry: BaseAgent.use_tool

Embeds `BaseAgent.use_tool` (app/agents/base_agent.py lines 103-156).  The
attempt outcomes of the wrapped provider are a function from the attempt
index to an `Except`; the embedding returns the final text, the history
entries this invocation appends to `execution_history`, and the backoff
delays slept between attempts (in seconds).
-/

/-- One entry of `execution_history` (the `tool`, `status`, `error` and
`result_length` fields; timestamp and arguments omitted). -/
structure ToolHistEntry where
  tool : String
  status : String
  error? : Option String := none
  resultLength? : Option ℕ := none

/-- The history entry appended on a successful tool execution. -/
def toolSuccessEntry (tool res : String) : ToolHistEntry :=
  { tool := tool, status := "success", resultLength? := some res.length }

/-- The history entry appended on a failed tool execution (its `error`
field holds `str(e)`). -/
def toolErrorEntry (tool e : String) : ToolHistEntry :=
  { tool := tool, status := "error", error? := some e }

/-- The logged error message `"Error using tool {tool_name}: {str(e)}"`. -/
def toolErrorMsg (tool e : String) : String :=
  "Error using tool " ++ tool ++ ": " ++ e

/-- The degraded textual payload returned after retry exhaustion. -/
def degradedToolMsg (tool : String) (maxRetries : ℕ) (e : String) : String :=
  "Failed to execute " ++ tool ++ " after " ++ toString maxRetries
    ++ " attempts: " ++ toolErrorMsg tool e

/-- The recursive retry loop of `use_tool`, started at `retryCount`: a
successful attempt records one success entry and returns its text; a
failed attempt records an error entry and, while `retryCount < maxRetries`,
sleeps `2 ^ retryCount` seconds and recurses with `retryCount + 1`; once
retries are exhausted the degraded message is returned instead of
raising. -/
def useToolFrom (tool : String) (behavior : ℕ → Except String String)
    (maxRetries : ℕ) (retryCount : ℕ) : String × List ToolHistEntry × List ℕ :=
  match behavior retryCount with
  | .ok res => (res, [toolSuccessEntry tool res], [])
  | .error e =>
      if retryCount < maxRetries then
        let r := useToolFrom tool behavior maxRetries (retryCount + 1)
        (r.1, toolErrorEntry tool e :: r.2.1, 2 ^ retryCount :: r.2.2)
      else
        (degradedToolMsg tool maxRetries e, [toolErrorEntry tool e], [])
termination_by maxRetries - retryCount

/-- A complete `use_tool` invocation (the public call passes
`retry_count = 0`; the default retry ceiling is `self.max_retries = 3`). -/
def useTool (tool : String) (behavior : ℕ → Except String String)
    (maxRetries : ℕ) : String × List ToolHistEntry × List ℕ :=
  useToolFrom tool behavior maxRetries 0

/-! ### AgentRuntime lifecycle: BaseAgent.run

Embeds `BaseAgent.pre_execute`, `post_execute` and `run`
(app/agents/base_agent.py lines 216-273).  The variant-specific
`execute_task` is abstracted as an `Except` outcome, covering every agent
variant.
-/

/-- The `execution_metadata` dictionary attached to results. -/
structure ExecMeta where
  agentId? : Option String := none
  errorCount : ℕ
  status : String

/-- The structured dictionary `run` returns: optional top-level `status`,
`error` and `agent_id` fields plus the attached `execution_metadata`. -/
structure RunResult where
  status? : Option String := none
  error? : Option String := none
  agentId? : Option String := none
  executionMetadata? : Option ExecMeta := none

/-- The mutable agent fields `run` touches. -/
structure AgentState where
  status : String := "initialized"
  errorCount : ℕ := 0

/-- Embeds `pre_execute`: set status to executing, then raise `ValueError`
when input validation fails. -/
def preExecute (validateOk : Bool) (st : AgentState) : Except String AgentState :=
  let st1 := { st with status := "executing" }
  if validateOk then .ok st1 else .error "Input validation failed"

/-- Embeds `post_execute`: set the final status from the error count and
attach `execution_metadata` to the result. -/
def postExecute (agentId : String) (st : AgentState) (r : RunResult) :
    AgentState × RunResult :=
  let newStatus := if st.errorCount = 0 then "completed" else "completed_with_errors"
  let meta : ExecMeta :=
    { agentId? := some agentId, errorCount := st.errorCount, status := newStatus }
  ({ st with status := newStatus }, { r with executionMetadata? := some meta })

/-- The message `f"Agent {agent_id} execution failed: {str(e)}"`. -/
def agentFailureMsg (agentId e : String) : String :=
  "Agent " ++ agentId ++ " execution failed: " ++ e

/-- Embeds `BaseAgent.run` (lines 250-273): the pre-execute / task /
post-execute pipeline inside a catch-all handler that converts any raised
exception into a structured failed result. -/
def runAgent (agentId : String) (validateOk : Bool) (task : Except String RunResult)
    (st : AgentState) : AgentState × RunResult :=
  let body : Except String (AgentState × RunResult) :=
    match preExecute validateOk st with
    | .error e => .error e
    | .ok st1 =>
        match task with
        | .error e => .error e
        | .ok r => .ok (postExecute agentId st1 r)
  match body with
  | .ok out => out
  | .error e =>
      ({ status := "failed", errorCount := st.errorCount + 1 },
       { status? := some "failed",
         error? := some (agentFailureMsg agentId e),
         agentId? := some agentId,
         executionMetadata? :=
           some { errorCount := st.errorCount + 1, status := "failed" } })

/-! ### WorkflowEngine phase 2: the per-material country branch

Embeds `RawMaterialSourcingWorkflow._analyze_material_countries`
(workflow_orchestrator.py lines 424-487) together with
`_get_fallback_countries` (lines 489-526).  The statement
`leader_agent = LeaderAgent(raw_material, priority)` at line 430 passes two
positional arguments, while `LeaderAgent.__init__` (leader_agent.py line
18) accepts only `raw_material`; the construction happens before the `try`
block, so the resulting `TypeError` leaves the branch.
-/

/-- An exception leaving `asyncio.wait_for(leader_agent.run(...))`: either
the timeout or some other raised error. -/
inductive PyExc where
  | timeoutExc : PyExc
  | otherExc : String → PyExc

/-- Number of positional parameters (besides `self`) accepted by
`LeaderAgent.__init__` (leader_agent.py line 18). -/
def leaderAgentInitPositionalParams : ℕ := 1

/-- Python call semantics for the constructor: a `TypeError` unless the
number of positional arguments matches the signature. -/
def constructLeaderAgent (argsGiven : ℕ) : Except String Unit :=
  if argsGiven = leaderAgentInitPositionalParams then .ok ()
  else .error "TypeError: LeaderAgent.__init__ takes 2 positional arguments but 3 were given"

/-- The per-material branch result dictionary of
`_analyze_material_countries`. -/
structure MaterialBranchResult where
  status : String
  error? : Option String := none
  rawMaterial? : Option String := none
  countries : List String := []
  bestCountry? : Option CountryEntry := none

/-- The static per-material fallback country table of
`_get_fallback_countries`: the first key occurring in the lowercased
material name wins (dictionary insertion order), with a generic fallback. -/
def fallbackCountryMap : List (String × List String) :=
  [("cocoa", ["Ecuador", "Ghana", "Ivory Coast"]),
   ("chocolate", ["Ecuador", "Ghana", "Ivory Coast"]),
   ("coffee", ["Brazil", "Colombia", "Ethiopia"]),
   ("cotton", ["India", "China", "USA"]),
   ("polyester", ["China", "India", "USA"]),
   ("textile", ["China", "India", "Bangladesh"]),
   ("dye", ["India", "China", "Germany"]),
   ("dyes", ["India", "China", "Germany"]),
   ("fiber", ["India", "China", "USA"]),
   ("sugar", ["Brazil", "India", "Thailand"]),
   ("wheat", ["Russia", "USA", "Canada"]),
   ("rice", ["China", "India", "Indonesia"]),
   ("milk", ["New Zealand", "Netherlands", "Germany"]),
   ("vanilla", ["Madagascar", "Indonesia", "Mexico"]),
   ("steel", ["China", "India", "Japan"]),
   ("aluminum", ["China", "Russia", "Canada"]),
   ("copper", ["Chile", "Peru", "China"]),
   ("lithium", ["Chile", "Australia", "Argentina"]),
   ("rubber", ["Thailand", "Indonesia", "Malaysia"]),
   ("wool", ["Australia", "China", "New Zealand"]),
   ("silk", ["China", "India", "Brazil"]),
   ("timber", ["Canada", "Russia", "Brazil"]),
   ("oil", ["Saudi Arabia", "Russia", "USA"]),
   ("palm", ["Indonesia", "Malaysia", "Thailand"]),
   ("essential", ["India", "France", "Bulgaria"]),
   ("titanium", ["Australia", "South Africa", "Canada"])]

/-- Embeds `_get_fallback_countries`. -/
def getFallbackCountries (rawMaterial : String) : List String :=
  let low := toLowerChars rawMaterial.data
  match fallbackCountryMap.find? (fun kv => hasSub low kv.1.data) with
  | some kv => kv.2
  | none => ["Brazil", "India", "China"]

/-- The `try` body and handlers of `_analyze_material_countries` after the
agent construction: timeouts and exceptions become structured
timeout/failed results with fallback countries, a failed leader result
becomes a structured failed result with fallback countries, and a
successful leader result yields the identified countries (fallback when
empty) truncated to the configured maximum. -/
def materialBranchBody (rawMaterial : String) (maxCountries : ℕ)
    (leaderRun : Except PyExc LeaderResult) : MaterialBranchResult :=
  match leaderRun with
  | .error .timeoutExc =>
      { status := "timeout", error? := some "Leader agent execution timed out",
        countries := getFallbackCountries rawMaterial }
  | .error (.otherExc m) =>
      { status := "failed", error? := some m,
        countries := getFallbackCountries rawMaterial }
  | .ok lr =>
      if lr.status = "failed" then
        { status := "failed", error? := some (lr.error?.getD "Unknown error"),
          countries := getFallbackCountries rawMaterial }
      else
        let countries0 :=
          if lr.identifiedCountries.isEmpty then getFallbackCountries rawMaterial
          else lr.identifiedCountries
        { status := "success", rawMaterial? := some rawMaterial,
          countries := countries0.take maxCountries,
          bestCountry? := some (extractBestCountry lr) }

/-- Embeds `_analyze_material_countries` as written: the constructor call
`LeaderAgent(raw_material, priority)` with two positional arguments runs
before the `try` block, and only afterwards does the guarded branch body
run.  The `priority` argument is the second positional argument of that
call. -/
def analyzeMaterialCountries (rawMaterial priority : String) (maxCountries : ℕ)
    (leaderRun : Except PyExc LeaderResult) : Except String MaterialBranchResult :=
  match constructLeaderAgent 2 with
  | .error e => .error e
  | .ok _ => .ok (materialBranchBody rawMaterial maxCountries leaderRun)

/-! ### ToolGateway caching: ClaudeTool.execute and DuckDuckGoTool.execute

Embeds `ClaudeTool.execute` / `_get_cache_key` (tools/claude_tool.py lines
26-97) and `DuckDuckGoTool.execute` / `_get_cache_key` /
`_format_results` (tools/duckduckgo_tool.py lines 112-125 and 236-318).
The underlying capability providers (the mock response generator and the
mock web-result generator, stand-ins for the real external services) are
function parameters; the embedded state counts how often they are invoked
(for Claude this is the source's own `request_count`, for DuckDuckGo an
observation counter for `_generate_mock_web_results` invocations).
-/

/-- Python dict lookup on an association list with unique keys. -/
def assocLookup [DecidableEq κ] (k : κ) : List (κ × β) → Option β
  | [] => none
  | (k2, v) :: t => if k2 = k then some v else assocLookup k t

/-- Python dict assignment: overwrite in place, or append a new key. -/
def assocUpdate [DecidableEq κ] (k : κ) (v : β) : List (κ × β) → List (κ × β)
  | [] => [(k, v)]
  | (k2, v2) :: t => if k2 = k then (k, v) :: t else (k2, v2) :: assocUpdate k v t

/-- Stable insertion into a list sorted ascending by `key`. -/
def insertByAsc (key : α → ℚ) (a : α) : List α → List α
  | [] => [a]
  | b :: t => if key a ≤ key b then a :: b :: t else b :: insertByAsc key a t

/-- Stable ascending sort by `key`: the model of Python
`sorted(cache.items(), key=lambda x: x[1][1])`. -/
def sortByAsc (key : α → ℚ) : List α → List α
  | [] => []
  | a :: t => insertByAsc key a (sortByAsc key t)

/-- The cache-cleanup step shared by both tools: once the cache exceeds
`limit` entries, delete the `drop` oldest entries (by timestamp). -/
def cacheEvict [DecidableEq κ] (limit drop : ℕ)
    (cache : List (κ × String × ℚ)) : List (κ × String × ℚ) :=
  if limit < cache.length then
    let oldest := ((sortByAsc (fun e => e.2.2) cache).take drop).map (fun e => e.1)
    cache.filter (fun e => decide (e.1 ∉ oldest))
  else cache

/-- The argument dictionary of a `ClaudeTool.execute` call, with the
`arguments.get` defaults of lines 30-38. -/
structure ClaudeArgs where
  prompt : String := ""
  maxTokens : ℕ := 2000
  temperature : ℚ := 7/10
  model? : Option String := none
  systemPrompt : String := ""
  responseFormat : String := "text"

/-- The canonical cache key built by `ClaudeTool._get_cache_key` (lines
88-97): stripped prompt, max_tokens, temperature, raw system_prompt and
defaulted model — `response_format` is not part of the key. -/
structure ClaudeCacheKey where
  prompt : String
  maxTokens : ℕ
  temperature : ℚ
  systemPrompt : String
  model : String
deriving DecidableEq

/-- Embeds `ClaudeTool._get_cache_key`. -/
def claudeCacheKey (selfModel : String) (a : ClaudeArgs) : ClaudeCacheKey :=
  { prompt := pyStrip a.prompt, maxTokens := a.maxTokens,
    temperature := a.temperature, systemPrompt := a.systemPrompt,
    model := a.model?.getD selfModel }

/-- The mutable `ClaudeTool` fields the execute path touches: the cache
(content and timestamp per key) and `request_count`. -/
structure ClaudeState where
  cache : List (ClaudeCacheKey × String × ℚ) := []
  requestCount : ℕ := 0

/-- The prompt enhancement of lines 50-56. -/
def enhancePrompt (responseFormat prompt : String) : String :=
  if responseFormat = "json" then
    prompt ++ "\n\nPlease provide your response in valid JSON format."
  else if responseFormat = "structured" then
    prompt ++ "\n\nPlease provide a well-structured response with clear sections, headings, and bullet points where appropriate."
  else prompt

/-- Number of words of Python `str.split()` (whitespace runs). -/
def countWords : List Char → Bool → ℕ
  | [], _ => 0
  | c :: t, inWord =>
      if pySpace c then countWords t false
      else (if inWord then 0 else 1) + countWords t true

/-- The metadata-decorated response text of line 67; the token estimate is
`len(content.split()) * 1.3` rendered with `:.0f`. -/
def claudeFormattedResponse (content model : String) (requestCount : ℕ) : String :=
  content ++ "\n\n---\nModel: " ++ model ++ "\nTokens (estimated): "
    ++ toString (roundHalfEven ((countWords content.data false : ℚ) * (13/10)))
    ++ "\nTotal API calls: " ++ toString requestCount

/-- The cache-miss path of `ClaudeTool.execute` (lines 50-80): enhance the
prompt, call the generator, bump `request_count`, decorate the response,
cache it under the canonical key and clean the cache above 50 entries. -/
def claudeMissPath (selfModel : String) (generate : String → String → String)
    (now : ℚ) (a : ClaudeArgs) (st : ClaudeState) (prompt : String)
    (key : ClaudeCacheKey) : String × ClaudeState :=
  let enhanced := enhancePrompt a.responseFormat prompt
  let content := generate enhanced (pyStrip a.systemPrompt)
  let newCount := st.requestCount + 1
  let formatted := claudeFormattedResponse content (a.model?.getD selfModel) newCount
  let cache1 := assocUpdate key (formatted, now) st.cache
  (formatted, { cache := cacheEvict 50 10 cache1, requestCount := newCount })

/-- Embeds `ClaudeTool.execute` (lines 26-97): reject an empty stripped
prompt, serve a fresh cache entry without touching the provider, otherwise
run the miss path.  The cache TTL is 1800 seconds. -/
def claudeExecute (selfModel : String) (generate : String → String → String)
    (now : ℚ) (a : ClaudeArgs) (st : ClaudeState) : String × ClaudeState :=
  let prompt := pyStrip a.prompt
  if prompt = "" then ("Error: Prompt is required and cannot be empty", st)
  else
    let key := claudeCacheKey selfModel a
    match assocLookup key st.cache with
    | some cv =>
        if now - cv.2 < 1800 then (cv.1, st)
        else claudeMissPath selfModel generate now a st prompt key
    | none => claudeMissPath selfModel generate now a st prompt key

/-- The argument dictionary of a `DuckDuckGoTool.execute` call, with the
`arguments.get` defaults of lines 267-274. -/
structure DuckArgs where
  query : String := ""
  maxResults : ℕ := 8
  region : String := "wt-wt"
  safeSearch : String := "moderate"
  timeRange : String := ""

/-- The cache key built by `DuckDuckGoTool._get_cache_key` (lines
112-121): lowercased stripped query and the raw max_results, region and
time_range arguments. -/
structure DuckCacheKey where
  query : String
  maxResults : ℕ
  region : String
  timeRange : String
deriving DecidableEq

/-- Embeds `DuckDuckGoTool._get_cache_key`. -/
def duckCacheKey (a : DuckArgs) : DuckCacheKey :=
  { query := pyStrip (String.mk (toLowerChars a.query.data)),
    maxResults := a.maxResults, region := a.region, timeRange := a.timeRange }

/-- One mock web result record, with the optional fields `_format_results`
reads through `.get`. -/
structure MockResult where
  title? : Option String := none
  url? : Option String := none
  snippet? : Option String := none
  domain? : Option String := none

/-- A string of `n` copies of one character (Python `"=" * n`). -/
def repChar (n : ℕ) (c : Char) : String := String.mk (List.replicate n c)

/-- Python `enumerate(results, 1)`. -/
def enumFrom (i : ℕ) : List α → List (ℕ × α)
  | [] => []
  | a :: t => (i, a) :: enumFrom (i + 1) t

/-- Embeds `DuckDuckGoTool._format_results` (lines 236-261). -/
def formatResults (results : List MockResult) (query : String) : String :=
  if results.isEmpty then
    "No search results found for query: '" ++ query ++ "'"
  else
    let header := ["Search Results for: '" ++ query ++ "'",
      "Found " ++ toString results.length ++ " results:",
      repChar 50 '=']
    let body := (enumFrom 1 results).foldr
      (fun (p : ℕ × MockResult) acc =>
        ["\n" ++ toString p.1 ++ ". " ++ p.2.title?.getD "No Title",
         "   URL: " ++ p.2.url?.getD "No URL",
         "   Domain: " ++ p.2.domain?.getD "Unknown",
         "   Description: " ++ p.2.snippet?.getD "No description available",
         repChar 40 '-'] ++ acc) []
    String.intercalate "\n" (header ++ body)

/-- The mutable `DuckDuckGoTool` fields the execute path touches, plus an
observation counter of provider (mock search) invocations. -/
structure DuckState where
  cache : List (DuckCacheKey × String × ℚ) := []
  lastRequestTime : ℚ := 0
  searchCalls : ℕ := 0

/-- The cache-miss path of `DuckDuckGoTool.execute` (lines 289-310): rate
limit (modelled as updating `last_request_time`), call the search provider
with the clamped result count, format, cache and clean above 100
entries. -/
def duckMissPath (search : String → ℕ → List MockResult) (now : ℚ) (a : DuckArgs)
    (st : DuckState) (query : String) (maxResults : ℕ) (key : DuckCacheKey) :
    String × DuckState :=
  let results := search query maxResults
  let formatted := formatResults results query
  let cache1 := assocUpdate key (formatted, now) st.cache
  (formatted,
   { cache := cacheEvict 100 20 cache1, lastRequestTime := now,
     searchCalls := st.searchCalls + 1 })

/-- Embeds `DuckDuckGoTool.execute` (lines 263-318): reject an empty
stripped query, clamp `max_results` to [1, 20], serve a fresh cache entry
without invoking the provider, otherwise run the miss path.  The cache TTL
is 300 seconds. -/
def duckExecute (search : String → ℕ → List MockResult) (now : ℚ) (a : DuckArgs)
    (st : DuckState) : String × DuckState :=
  let query := pyStrip a.query
  if query = "" then ("Error: Query parameter is required and cannot be empty", st)
  else
    let maxResults := max 1 (min a.maxResults 20)
    let key := duckCacheKey a
    match assocLookup key st.cache with
    | some cv =>
        if now - cv.2 < 300 then (cv.1, st)
        else duckMissPath search now a st query maxResults key
    | none => duckMissPath search now a st query maxResults key

theorem sum_defaultScoringWeights (priority : String) :
    (defaultScoringWeights priority).profitability
      + (defaultScoringWeights priority).stability
      + (defaultScoringWeights priority).eco_friendly = 1 := by
  simp only [defaultScoringWeights]
  split_ifs <;> norm_num

theorem calculateCountryScore_three (w : ScoringWeights)
    (hw : 0 < w.profitability + w.stability + w.eco_friendly) (p s e : ℚ) :
    calculateCountryScore w
      [("profitability", { expertScore? := some p }),
       ("stability", { expertScore? := some s }),
       ("eco-friendly", { expertScore? := some e })] =
    pyRound 2 ((p * w.profitability + s * w.stability + e * w.eco_friendly)
      / (w.profitability + w.stability + w.eco_friendly)) := by
  simp only [calculateCountryScore, List.foldl, fieldToWeight, getExpertScore,
    Option.getD, reduceIte, String.reduceEq]
  rw [if_pos (by linarith : (0:ℚ) < 0 + w.profitability + w.stability + w.eco_friendly)]
  ring_nf

/-- C3: the composite score of a (material, country) pair is
Σ(dimension_score × weight) / Σ(weight) for the declared priority's weight
profile; under priority profitability (weights 0.6/0.2/0.2) the dimension
scores 8/6/7 give composite 7.4, the scores 6/8/8 give 6.8, and the
descending ranking puts the 7.4 country first whatever the discovery
order. -/
theorem C3_composite_formula_and_scenario :
    (∀ (priority : String) (p s e : ℚ),
      calculateCountryScore (defaultScoringWeights priority)
        [("profitability", { expertScore? := some p }),
         ("stability", { expertScore? := some s }),
         ("eco-friendly", { expertScore? := some e })] =
      pyRound 2 ((p * (defaultScoringWeights priority).profitability
          + s * (defaultScoringWeights priority).stability
          + e * (defaultScoringWeights priority).eco_friendly)
        / ((defaultScoringWeights priority).profitability
          + (defaultScoringWeights priority).stability
          + (defaultScoringWeights priority).eco_friendly))) ∧
    defaultScoringWeights "profitability" = ⟨6/10, 2/10, 2/10⟩ ∧
    calculateCountryScore (defaultScoringWeights "profitability")
      [("profitability", { expertScore? := some 8 }),
       ("stability", { expertScore? := some 6 }),
       ("eco-friendly", { expertScore? := some 7 })] = 74/10 ∧
    calculateCountryScore (defaultScoringWeights "profitability")
      [("profitability", { expertScore? := some 6 }),
       ("stability", { expertScore? := some 8 }),
       ("eco-friendly", { expertScore? := some 8 })] = 68/10 ∧
    rankCountries [("CountryA", 74/10), ("CountryB", 68/10)]
      = [("CountryA", 74/10), ("CountryB", 68/10)] ∧
    rankCountries [("CountryB", 68/10), ("CountryA", 74/10)]
      = [("CountryA", 74/10), ("CountryB", 68/10)] := by
  have hw : ∀ priority : String,
      (0:ℚ) < (defaultScoringWeights priority).profitability
        + (defaultScoringWeights priority).stability
        + (defaultScoringWeights priority).eco_friendly := by
    intro priority
    rw [sum_defaultScoringWeights]
    norm_num
  have hprof : defaultScoringWeights "profitability" = ⟨6/10, 2/10, 2/10⟩ := by
    simp [defaultScoringWeights]
  refine ⟨fun priority p s e => calculateCountryScore_three _ (hw priority) p s e,
    hprof, ?_, ?_, ?_, ?_⟩
  · rw [calculateCountryScore_three _ (hw "profitability") 8 6 7, hprof]
    have : roundHalfEven ((((8:ℚ) * (6/10) + 6 * (2/10) + 7 * (2/10))
        / (6/10 + 2/10 + 2/10)) * 10 ^ 2) = 740 := by
      apply roundHalfEven_low <;> norm_num
    simp only [pyRound, this]
    norm_num
  · rw [calculateCountryScore_three _ (hw "profitability") 6 8 8, hprof]
    have : roundHalfEven ((((6:ℚ) * (6/10) + 8 * (2/10) + 8 * (2/10))
        / (6/10 + 2/10 + 2/10)) * 10 ^ 2) = 680 := by
      apply roundHalfEven_low <;> norm_num
    simp only [pyRound, this]
    norm_num
  · simp only [rankCountries, sortByDesc, insertByDesc]
    norm_num
  · simp only [rankCountries, sortByDesc, insertByDesc]
    norm_num

/-- C8: recommendation confidence comes from the composite gap between the
rank-1 and rank-2 countries: gap ≥ 1.0 gives HIGH, gap ≥ 0.5 gives
MODERATE, anything smaller gives LOW, and fewer than two ranked countries
give MODERATE. -/
theorem C8_confidence_from_gap (best : CountryEntry) (rs : List CountryEntry) :
    (rs.length < 2 → calculateConfidenceLevel best rs = "MODERATE") ∧
    (∀ r1 r2 rest, rs = r1 :: r2 :: rest →
      (1 ≤ getCompositeScore best - getCompositeScore r2 →
        calculateConfidenceLevel best rs = "HIGH") ∧
      (getCompositeScore best - getCompositeScore r2 < 1 →
        1/2 ≤ getCompositeScore best - getCompositeScore r2 →
        calculateConfidenceLevel best rs = "MODERATE") ∧
      (getCompositeScore best - getCompositeScore r2 < 1/2 →
        calculateConfidenceLevel best rs = "LOW")) := by
  constructor
  · intro hlen
    match rs, hlen with
    | [], _ => rfl
    | [_], _ => rfl
  · intro r1 r2 rest hrs
    subst hrs
    refine ⟨fun h => ?_, fun h1 h2 => ?_, fun h => ?_⟩
    · simp only [calculateConfidenceLevel]
      rw [if_pos h]
    · simp only [calculateConfidenceLevel]
      rw [if_neg (by linarith), if_pos h2]
    · simp only [calculateConfidenceLevel]
      rw [if_neg (by linarith), if_neg (by linarith)]

theorem C8_confidence_from_gap_witness :
    calculateConfidenceLevel { country := "A", compositeScore? := some (74/10) }
      [{ country := "A", compositeScore? := some (74/10) }] = "MODERATE" ∧
    calculateConfidenceLevel { country := "A", compositeScore? := some (74/10) }
      [{ country := "A", compositeScore? := some (74/10) },
       { country := "B", compositeScore? := some (68/10) }] = "MODERATE" := by
  constructor
  · exact (C8_confidence_from_gap _ _).1 (by norm_num)
  · exact ((C8_confidence_from_gap
      { country := "A", compositeScore? := some (74/10) }
      [{ country := "A", compositeScore? := some (74/10) },
       { country := "B", compositeScore? := some (68/10) }]).2 _ _ [] rfl).2.1
      (by norm_num [getCompositeScore]) (by norm_num [getCompositeScore])

theorem assocLookup_assocUpdate [DecidableEq κ] (k : κ) (v : β) (l : List (κ × β)) :
    assocLookup k (assocUpdate k v l) = some v := by
  induction l with
  | nil => simp [assocUpdate, assocLookup]
  | cons p t ih =>
      obtain ⟨k2, v2⟩ := p
      by_cases h : k2 = k
      · simp [assocUpdate, assocLookup, h]
      · simp [assocUpdate, assocLookup, h, ih]

theorem assocUpdate_length [DecidableEq κ] (k : κ) (v : β) (l : List (κ × β)) :
    (assocUpdate k v l).length ≤ l.length + 1 := by
  induction l with
  | nil => simp [assocUpdate]
  | cons p t ih =>
      obtain ⟨k2, v2⟩ := p
      by_cases h : k2 = k
      · simp [assocUpdate, h]
      · simp only [assocUpdate, if_neg h, List.length_cons]
        omega

theorem claudeExecute_miss (selfModel : String) (generate : String → String → String)
    (t1 : ℚ) (a : ClaudeArgs) (st : ClaudeState)
    (hprompt : ¬ pyStrip a.prompt = "")
    (hkey : assocLookup (claudeCacheKey selfModel a) st.cache = none) :
    claudeExecute selfModel generate t1 a st =
      claudeMissPath selfModel generate t1 a st (pyStrip a.prompt)
        (claudeCacheKey selfModel a) := by
  simp only [claudeExecute]
  rw [if_neg hprompt, hkey]

theorem duckExecute_miss (search : String → ℕ → List MockResult)
    (t1 : ℚ) (a : DuckArgs) (st : DuckState)
    (hquery : ¬ pyStrip a.query = "")
    (hkey : assocLookup (duckCacheKey a) st.cache = none) :
    duckExecute search t1 a st =
      duckMissPath search t1 a st (pyStrip a.query) (max 1 (min a.maxResults 20))
        (duckCacheKey a) := by
  simp only [duckExecute]
  rw [if_neg hquery, hkey]

/-- C7: for either provider tool, two identical invocations within the
cache TTL perform exactly one underlying provider call: the first fills
the cache (Claude's `request_count` and the search-call counter advance by
exactly one), and the second is served from the cache, returning the same
normalized text and leaving the state untouched. -/
theorem C7_cache_single_provider_call (selfModel : String)
    (generate : String → String → String) (search : String → ℕ → List MockResult)
    (a : ClaudeArgs) (d : DuckArgs) (st : ClaudeState) (sd : DuckState) (t1 t2 : ℚ)
    (hprompt : ¬ pyStrip a.prompt = "")
    (hkey : assocLookup (claudeCacheKey selfModel a) st.cache = none)
    (hsize : st.cache.length ≤ 49)
    (httl : t2 - t1 < 1800)
    (hquery : ¬ pyStrip d.query = "")
    (hdkey : assocLookup (duckCacheKey d) sd.cache = none)
    (hdsize : sd.cache.length ≤ 99)
    (hdttl : t2 - t1 < 300) :
    ((claudeExecute selfModel generate t2 a (claudeExecute selfModel generate t1 a st).2).1 =
      (claudeExecute selfModel generate t1 a st).1 ∧
    (claudeExecute selfModel generate t2 a (claudeExecute selfModel generate t1 a st).2).2 =
      (claudeExecute selfModel generate t1 a st).2 ∧
    (claudeExecute selfModel generate t1 a st).2.requestCount = st.requestCount + 1) ∧
    ((duckExecute search t2 d (duckExecute search t1 d sd).2).1 =
      (duckExecute search t1 d sd).1 ∧
    (duckExecute search t2 d (duckExecute search t1 d sd).2).2 =
      (duckExecute search t1 d sd).2 ∧
    (duckExecute search t1 d sd).2.searchCalls = sd.searchCalls + 1) := by
  constructor
  · have h1 := claudeExecute_miss selfModel generate t1 a st hprompt hkey
    have hev : ∀ s : String,
        cacheEvict 50 10 (assocUpdate (claudeCacheKey selfModel a) (s, t1) st.cache) =
          assocUpdate (claudeCacheKey selfModel a) (s, t1) st.cache := by
      intro s
      rw [cacheEvict, if_neg]
      have := assocUpdate_length (claudeCacheKey selfModel a) (s, t1) st.cache
      omega
    have hcache : (claudeMissPath selfModel generate t1 a st (pyStrip a.prompt)
          (claudeCacheKey selfModel a)).2.cache =
        assocUpdate (claudeCacheKey selfModel a)
          ((claudeMissPath selfModel generate t1 a st (pyStrip a.prompt)
            (claudeCacheKey selfModel a)).1, t1) st.cache := by
      simp only [claudeMissPath]
      exact hev _
    have hcount : (claudeMissPath selfModel generate t1 a st (pyStrip a.prompt)
          (claudeCacheKey selfModel a)).2.requestCount = st.requestCount + 1 := by
      simp only [claudeMissPath]
    have h2 : claudeExecute selfModel generate t2 a
        (claudeExecute selfModel generate t1 a st).2 =
        ((claudeExecute selfModel generate t1 a st).1,
         (claudeExecute selfModel generate t1 a st).2) := by
      rw [h1]
      simp only [claudeExecute]
      rw [if_neg hprompt, hcache, assocLookup_assocUpdate]
      simp [httl]
    exact ⟨by rw [h2], by rw [h2], by rw [h1, hcount]⟩
  · have h1 := duckExecute_miss search t1 d sd hquery hdkey
    have hev : ∀ s : String,
        cacheEvict 100 20 (assocUpdate (duckCacheKey d) (s, t1) sd.cache) =
          assocUpdate (duckCacheKey d) (s, t1) sd.cache := by
      intro s
      rw [cacheEvict, if_neg]
      have := assocUpdate_length (duckCacheKey d) (s, t1) sd.cache
      omega
    have hcache : (duckMissPath search t1 d sd (pyStrip d.query)
          (max 1 (min d.maxResults 20)) (duckCacheKey d)).2.cache =
        assocUpdate (duckCacheKey d)
          ((duckMissPath search t1 d sd (pyStrip d.query)
            (max 1 (min d.maxResults 20)) (duckCacheKey d)).1, t1) sd.cache := by
      simp only [duckMissPath]
      exact hev _
    have hcount : (duckMissPath search t1 d sd (pyStrip d.query)
          (max 1 (min d.maxResults 20)) (duckCacheKey d)).2.searchCalls =
        sd.searchCalls + 1 := by
      simp only [duckMissPath]
    have h2 : duckExecute search t2 d (duckExecute search t1 d sd).2 =
        ((duckExecute search t1 d sd).1, (duckExecute search t1 d sd).2) := by
      rw [h1]
      simp only [duckExecute]
      rw [if_neg hquery, hcache, assocLookup_assocUpdate]
      simp [hdttl]
    exact ⟨by rw [h2], by rw [h2], by rw [h1, hcount]⟩

/-- A concrete generator and provider for instantiating the cache claims. -/
def c7Generate : String → String → String := fun _ _ => "mock llm response"

/-- A concrete search provider for instantiating the cache claims. -/
def c7Search : String → ℕ → List MockResult := fun _ _ => []

/-- Concrete Claude arguments for instantiating the cache claims. -/
def c7ClaudeArgs : ClaudeArgs := { prompt := "identify raw materials" }

/-- Concrete DuckDuckGo arguments for instantiating the cache claims. -/
def c7DuckArgs : DuckArgs := { query := "top cocoa producing countries" }

theorem C7_cache_single_provider_call_witness :
    ((claudeExecute "claude-3-sonnet-20240229" c7Generate 100 c7ClaudeArgs
        (claudeExecute "claude-3-sonnet-20240229" c7Generate 0 c7ClaudeArgs {}).2).1 =
      (claudeExecute "claude-3-sonnet-20240229" c7Generate 0 c7ClaudeArgs {}).1 ∧
    (claudeExecute "claude-3-sonnet-20240229" c7Generate 100 c7ClaudeArgs
        (claudeExecute "claude-3-sonnet-20240229" c7Generate 0 c7ClaudeArgs {}).2).2 =
      (claudeExecute "claude-3-sonnet-20240229" c7Generate 0 c7ClaudeArgs {}).2 ∧
    (claudeExecute "claude-3-sonnet-20240229" c7Generate 0 c7ClaudeArgs
        {}).2.requestCount = 0 + 1) ∧
    ((duckExecute c7Search 100 c7DuckArgs (duckExecute c7Search 0 c7DuckArgs {}).2).1 =
      (duckExecute c7Search 0 c7DuckArgs {}).1 ∧
    (duckExecute c7Search 100 c7DuckArgs (duckExecute c7Search 0 c7DuckArgs {}).2).2 =
      (duckExecute c7Search 0 c7DuckArgs {}).2 ∧
    (duckExecute c7Search 0 c7DuckArgs {}).2.searchCalls = 0 + 1) :=
  C7_cache_single_provider_call "claude-3-sonnet-20240229" c7Generate c7Search
    c7ClaudeArgs c7DuckArgs {} {} 0 100
    (by decide) rfl (by decide) (by norm_num)
    (by decide) rfl (by decide) (by norm_num)

/-- C10: the language-model cache key is built only from prompt,
max_tokens, temperature, system_prompt and model — `response_format` is
excluded — so within the TTL two generate requests differing only in
`response_format` share one cache entry: the second returns the text
cached for the first and performs no new generation (the state, including
`request_count`, is untouched). -/
theorem C10_response_format_excluded_from_cache_key (selfModel : String)
    (generate : String → String → String) (a : ClaudeArgs) (rf : String)
    (st : ClaudeState) (t1 t2 : ℚ)
    (hprompt : ¬ pyStrip a.prompt = "")
    (hkey : assocLookup (claudeCacheKey selfModel a) st.cache = none)
    (hsize : st.cache.length ≤ 49)
    (httl : t2 - t1 < 1800) :
    claudeCacheKey selfModel { a with responseFormat := rf } =
      claudeCacheKey selfModel a ∧
    (claudeExecute selfModel generate t2 { a with responseFormat := rf }
        (claudeExecute selfModel generate t1 a st).2).1 =
      (claudeExecute selfModel generate t1 a st).1 ∧
    (claudeExecute selfModel generate t2 { a with responseFormat := rf }
        (claudeExecute selfModel generate t1 a st).2).2 =
      (claudeExecute selfModel generate t1 a st).2 := by
  have hkeyeq : claudeCacheKey selfModel { a with responseFormat := rf } =
      claudeCacheKey selfModel a := rfl
  have hp2 : ¬ pyStrip ({ a with responseFormat := rf } : ClaudeArgs).prompt = "" := hprompt
  have h1 := claudeExecute_miss selfModel generate t1 a st hprompt hkey
  have hev : ∀ s : String,
      cacheEvict 50 10 (assocUpdate (claudeCacheKey selfModel a) (s, t1) st.cache) =
        assocUpdate (claudeCacheKey selfModel a) (s, t1) st.cache := by
    intro s
    rw [cacheEvict, if_neg]
    have := assocUpdate_length (claudeCacheKey selfModel a) (s, t1) st.cache
    omega
  have hcache : (claudeMissPath selfModel generate t1 a st (pyStrip a.prompt)
        (claudeCacheKey selfModel a)).2.cache =
      assocUpdate (claudeCacheKey selfModel a)
        ((claudeMissPath selfModel generate t1 a st (pyStrip a.prompt)
          (claudeCacheKey selfModel a)).1, t1) st.cache := by
    simp only [claudeMissPath]
    exact hev _
  have h2 : claudeExecute selfModel generate t2 { a with responseFormat := rf }
      (claudeExecute selfModel generate t1 a st).2 =
      ((claudeExecute selfModel generate t1 a st).1,
       (claudeExecute selfModel generate t1 a st).2) := by
    rw [h1]
    simp only [claudeExecute]
    rw [if_neg hp2, hkeyeq, hcache, assocLookup_assocUpdate]
    simp [httl]
  exact ⟨hkeyeq, by rw [h2], by rw [h2]⟩

theorem C10_response_format_excluded_from_cache_key_witness :
    claudeCacheKey "claude-3-sonnet-20240229"
        { c7ClaudeArgs with responseFormat := "json" } =
      claudeCacheKey "claude-3-sonnet-20240229" c7ClaudeArgs ∧
    (claudeExecute "claude-3-sonnet-20240229" c7Generate 100
        { c7ClaudeArgs with responseFormat := "json" }
        (claudeExecute "claude-3-sonnet-20240229" c7Generate 0 c7ClaudeArgs {}).2).1 =
      (claudeExecute "claude-3-sonnet-20240229" c7Generate 0 c7ClaudeArgs {}).1 ∧
    (claudeExecute "claude-3-sonnet-20240229" c7Generate 100
        { c7ClaudeArgs with responseFormat := "json" }
        (claudeExecute "claude-3-sonnet-20240229" c7Generate 0 c7ClaudeArgs {}).2).2 =
      (claudeExecute "claude-3-sonnet-20240229" c7Generate 0 c7ClaudeArgs {}).2 :=
  C10_response_format_excluded_from_cache_key "claude-3-sonnet-20240229" c7Generate
    c7ClaudeArgs "json" {} 0 100 (by decide) rfl (by decide) (by norm_num)

theorem useToolFrom_success (tool : String) (behavior : ℕ → Except String String)
    (maxRetries : ℕ) :
    ∀ (N rc : ℕ) (res : String) (errs : ℕ → String),
      (∀ i, i < N → behavior (rc + i) = .error (errs i)) →
      behavior (rc + N) = .ok res →
      rc + N ≤ maxRetries →
      useToolFrom tool behavior maxRetries rc =
        (res,
         ((List.range N).map fun i => toolErrorEntry tool (errs i))
           ++ [toolSuccessEntry tool res],
         (List.range N).map fun i => 2 ^ (rc + i)) := by
  intro N
  induction N with
  | zero =>
      intro rc res errs _ hsucc _
      have h : behavior rc = .ok res := by simpa using hsucc
      rw [useToolFrom, h]
      simp
  | succ N ih =>
      intro rc res errs hfail hsucc hle
      have h0 : behavior rc = .error (errs 0) := by simpa using hfail 0 (Nat.succ_pos N)
      have hlt : rc < maxRetries := by omega
      rw [useToolFrom, h0]
      have hrec := ih (rc + 1) res (fun i => errs (i + 1))
        (fun i hi => by
          have h := hfail (i + 1) (by omega)
          rw [show rc + 1 + i = rc + (i + 1) by omega]
          exact h)
        (by
          rw [show rc + 1 + N = rc + (N + 1) by omega]
          exact hsucc)
        (by omega)
      rw [hrec]
      have harith : ∀ i, rc + 1 + i = rc + (i + 1) := fun i => by omega
      simp [hlt, List.range_succ_eq_map, List.map_map, Function.comp,
        Nat.succ_eq_add_one, harith]

theorem useToolFrom_exhaust (tool : String) (behavior : ℕ → Except String String)
    (maxRetries : ℕ) :
    ∀ (d rc : ℕ), maxRetries - rc = d → rc ≤ maxRetries →
      ∀ errs : ℕ → String, (∀ i, i ≤ maxRetries → behavior i = .error (errs i)) →
      useToolFrom tool behavior maxRetries rc =
        (degradedToolMsg tool maxRetries (errs maxRetries),
         (List.range (d + 1)).map fun i => toolErrorEntry tool (errs (rc + i)),
         (List.range d).map fun i => 2 ^ (rc + i)) := by
  intro d
  induction d with
  | zero =>
      intro rc h0 hle errs hfail
      have heq : rc = maxRetries := by omega
      subst heq
      rw [useToolFrom, hfail rc le_rfl]
      simp [List.range_succ]
  | succ d ih =>
      intro rc h0 hle errs hfail
      have hlt : rc < maxRetries := by omega
      rw [useToolFrom, hfail rc (by omega)]
      rw [ih (rc + 1) (by omega) (by omega) errs hfail]
      have harith : ∀ i, rc + 1 + i = rc + (i + 1) := fun i => by omega
      simp [hlt, List.range_succ_eq_map, List.map_map, Function.comp,
        Nat.succ_eq_add_one, harith]

/-- C6: a tool invocation retries up to `max_retries` (default 3) provider
faults with backoff delays 2^attempt; when the provider fails
deterministically on the first N attempts (N ≤ 3) and then succeeds, the
invocation returns exactly one success result preceded by exactly N failed
history entries, with ascending backoff delays; when every attempt fails,
the invocation returns the degraded textual payload instead of raising. -/
theorem C6_retry_backoff_history (tool : String) (behavior : ℕ → Except String String) :
    (∀ (N : ℕ) (res : String) (errs : ℕ → String),
      N ≤ 3 →
      (∀ i, i < N → behavior i = .error (errs i)) →
      behavior N = .ok res →
      useTool tool behavior 3 =
        (res,
         ((List.range N).map fun i => toolErrorEntry tool (errs i))
           ++ [toolSuccessEntry tool res],
         (List.range N).map fun i => 2 ^ i)) ∧
    (∀ errs : ℕ → String,
      (∀ i, i ≤ 3 → behavior i = .error (errs i)) →
      useTool tool behavior 3 =
        (degradedToolMsg tool 3 (errs 3),
         (List.range 4).map fun i => toolErrorEntry tool (errs i),
         [1, 2, 4])) := by
  constructor
  · intro N res errs hN hfail hsucc
    have h := useToolFrom_success tool behavior 3 N 0 res errs
      (fun i hi => by simpa using hfail i hi) (by simpa using hsucc) (by omega)
    rw [useTool, h]
    simp
  · intro errs hfail
    have h := useToolFrom_exhaust tool behavior 3 3 0 (by omega) (by omega) errs hfail
    rw [useTool, h]
    refine congrArg _ (congrArg _ ?_)
    show (List.range 3).map (fun i => 2 ^ (0 + i)) = [1, 2, 4]
    simp [List.range_succ]

/-- A concrete provider behavior failing twice before succeeding. -/
def c6Behavior : ℕ → Except String String :=
  fun i => if i < 2 then .error "ProviderError" else .ok "normalized search text"

theorem C6_retry_backoff_history_witness :
    useTool "duckduckgo" c6Behavior 3 =
      ("normalized search text",
       [toolErrorEntry "duckduckgo" "ProviderError",
        toolErrorEntry "duckduckgo" "ProviderError",
        toolSuccessEntry "duckduckgo" "normalized search text"],
       [1, 2]) := by
  have h := (C6_retry_backoff_history "duckduckgo" c6Behavior).1 2 "normalized search text"
    (fun _ => "ProviderError") (by norm_num)
    (fun i hi => by simp only [c6Behavior, if_pos hi])
    (by simp [c6Behavior])
  rw [h]
  simp [List.range_succ]

/-- C9: for every agent variant and every input, `run` returns a
structured result rather than raising: execution metadata (carrying a
status) is always attached, a failed validation or a raised task exception
yields top-level status "failed" with an error message, and a successful
task yields the task's own result with completion metadata attached. -/
theorem C9_run_never_raises (agentId : String) (validateOk : Bool)
    (task : Except String RunResult) (st : AgentState) :
    (runAgent agentId validateOk task st).2.executionMetadata?.isSome = true ∧
    (validateOk = false →
      (runAgent agentId validateOk task st).2.status? = some "failed" ∧
      (runAgent agentId validateOk task st).2.error? =
        some (agentFailureMsg agentId "Input validation failed")) ∧
    (∀ e, validateOk = true → task = .error e →
      (runAgent agentId validateOk task st).2.status? = some "failed" ∧
      (runAgent agentId validateOk task st).2.error? = some (agentFailureMsg agentId e)) ∧
    (∀ r, validateOk = true → task = .ok r →
      (runAgent agentId validateOk task st).2 =
        { r with
          executionMetadata? := some ⟨some agentId, st.errorCount,
            if st.errorCount = 0 then "completed" else "completed_with_errors"⟩ }) := by
  cases validateOk with
  | false =>
      refine ⟨by simp [runAgent, preExecute], fun _ => ?_,
        fun e hv => by simp at hv, fun r hv => by simp at hv⟩
      constructor <;> simp [runAgent, preExecute]
  | true =>
      cases task with
      | error e =>
          refine ⟨by simp [runAgent, preExecute], fun hv => by simp at hv, ?_, ?_⟩
          · intro e2 _ he
            injection he with he2
            subst he2
            constructor <;> simp [runAgent, preExecute]
          · intro r _ hr
            exact Except.noConfusion hr
      | ok r =>
          refine ⟨by simp [runAgent, preExecute, postExecute], fun hv => by simp at hv,
            ?_, ?_⟩
          · intro e _ he
            exact Except.noConfusion he
          · intro r2 _ hr
            injection hr with hr2
            subst hr2
            simp [runAgent, preExecute, postExecute]

theorem C9_run_never_raises_witness :
    (runAgent "agent_1" true (.error "boom") {}).2.executionMetadata?.isSome = true ∧
    (runAgent "agent_1" true (.error "boom") {}).2.status? = some "failed" ∧
    (runAgent "agent_1" true (.error "boom") {}).2.error? =
      some (agentFailureMsg "agent_1" "boom") := by
  have h := C9_run_never_raises "agent_1" true (.error "boom") {}
  exact ⟨h.1, (h.2.2.1 "boom" rfl rfl).1, (h.2.2.1 "boom" rfl rfl).2⟩

/-- C1 fails on the code (code bug): the orchestrator constructs
`LeaderAgent(raw_material, priority)` with two positional arguments before
the `try` block, while the constructor accepts only `raw_material`, so for
every material the phase-2 branch raises `TypeError` out of the branch
instead of returning a structured result — and the `except` handlers that
would realize the claimed continue-on-failure policy (second conjunct) are
unreachable. -/
theorem C1_material_branch_raises_type_error (rawMaterial priority : String)
    (maxCountries : ℕ) (leaderRun : Except PyExc LeaderResult) :
    analyzeMaterialCountries rawMaterial priority maxCountries leaderRun =
      .error "TypeError: LeaderAgent.__init__ takes 2 positional arguments but 3 were given" ∧
    (∀ m, (materialBranchBody rawMaterial maxCountries (.error (.otherExc m))).status
        = "failed" ∧
      (materialBranchBody rawMaterial maxCountries (.error (.otherExc m))).countries
        = getFallbackCountries rawMaterial) := by
  constructor
  · simp [analyzeMaterialCountries, constructLeaderAgent, leaderAgentInitPositionalParams]
  · intro m
    exact ⟨rfl, rfl⟩

theorem pyRound1_eq {b : ℚ} {m : ℤ} (h1 : (m:ℚ) ≤ b * 10) (h2 : b * 10 < (m:ℚ) + 1/2) :
    pyRound 1 b = m / 10 := by
  have e : ((10:ℚ)) ^ (1:ℕ) = 10 := by norm_num
  simp only [pyRound, e, roundHalfEven_low h1 h2]

theorem clamp_eval {x : ℚ} (h3 : 1 ≤ x) (h4 : x ≤ 10) : max 1 (min 10 x) = x := by
  rw [min_eq_right h4, max_eq_right h3]

/-- C4 fails as stated: the text "score: 2 score: 7.5" contains the
explicit fragment "score: 7.5", yet extraction returns 2.0, because only
the first match of the first pattern is ever range-checked. -/
theorem C4_counterexample_first_match_only :
    hasSub (toLowerChars "score: 2 score: 7.5".data) "score: 7.5".data = true ∧
    extractExpertScore "score: 2 score: 7.5" = 2 := by
  constructor
  · decide
  · have hfind : findFirstCapture matchScoreAt (toLowerChars "score: 2 score: 7.5".data)
        = some ['2'] := by decide
    have hparse : parseCapture ['2'] = 2 := by
      have h1 : splitDigits ['2'] = (['2'], []) := by decide
      have h2 : digitsToNat ['2'] = 2 := by decide
      simp [parseCapture, h1, h2]
    have hround : pyRound 1 (2:ℚ) = 2 := by
      have := @pyRound1_eq 2 20 (by norm_num) (by norm_num)
      rw [this]; norm_num
    simp only [extractExpertScore, scoreFromPattern, hfind, hparse]
    rw [if_pos (by norm_num : (1:ℚ) ≤ 2 ∧ (2:ℚ) ≤ 10)]
    simp [hround]

/-- C4 amended: extraction tries the four patterns in order but
range-checks only the leftmost match of each pattern; whenever the leftmost
match of the "score: x" pattern on the lowercased text captures "7.5",
extraction returns 7.5, whatever sentiment words or later score fragments
the text contains. -/
theorem C4_amended_leftmost_score_capture (t : String)
    (h : findFirstCapture matchScoreAt (toLowerChars t.data) = some ['7', '.', '5']) :
    extractExpertScore t = 75/10 := by
  have hparse : parseCapture ['7', '.', '5'] = 75/10 := by
    have h1 : splitDigits ['7', '.', '5'] = (['7'], ['.', '5']) := by decide
    have h2 : digitsToNat ['7'] = 7 := by decide
    have h3 : digitsToNat ['5'] = 5 := by decide
    simp [parseCapture, h1, h2, h3]
    norm_num
  have hround : pyRound 1 ((75:ℚ)/10) = 75/10 := by
    have := @pyRound1_eq (75/10) 75 (by norm_num) (by norm_num)
    rw [this]; norm_num
  simp only [extractExpertScore, scoreFromPattern, h, hparse]
  rw [if_pos (by norm_num : (1:ℚ) ≤ 75/10 ∧ (75:ℚ)/10 ≤ 10)]
  simp [hround]

theorem C4_amended_leftmost_score_capture_witness :
    extractExpertScore "Risky and poor outlook, but final score: 7.5" = 75/10 :=
  C4_amended_leftmost_score_capture _ (by decide)

/-- C5 fails as stated: the fallback score is not a function of the net
sentiment count offset from base 5.5 — "good" and "good stable risky" both
have net count 1 but score 7.3 and 7.6 respectively. -/
theorem C5_counterexample_not_net_linear :
    ¬ ∃ c : ℚ, ∀ t : String,
      sentimentBasedScoring t = max 1 (min 10 (11/2 + c * netSentiment t)) := by
  rintro ⟨c, h⟩
  have h1 := h "good"
  have h2 := h "good stable risky"
  have hn1 : netSentiment "good" = 1 := by decide
  have hn2 : netSentiment "good stable risky" = 1 := by decide
  rw [hn1] at h1
  rw [hn2] at h2
  have hp1 : countPresent positiveWords (toLowerChars "good".data) = 1 := by decide
  have hq1 : countPresent negativeWords (toLowerChars "good".data) = 0 := by decide
  have hr1 : countPresent neutralWords (toLowerChars "good".data) = 0 := by decide
  have hp2 : countPresent positiveWords (toLowerChars "good stable risky".data) = 2 := by decide
  have hq2 : countPresent negativeWords (toLowerChars "good stable risky".data) = 1 := by decide
  have hr2 : countPresent neutralWords (toLowerChars "good stable risky".data) = 0 := by decide
  have s1 : sentimentBasedScoring "good" = 73/10 := by
    simp only [sentimentBasedScoring, hp1, hq1, hr1]
    rw [if_pos (by norm_num : (0:ℕ) < 1)]
    have hmin : min (((1:ℕ):ℚ) * (3/10)) 2 = 3/10 := by
      have e : (((1:ℕ):ℚ)) * (3/10) = 3/10 := by push_cast; ring
      rw [e, min_eq_left (by norm_num)]
    rw [hmin]
    have hround := @pyRound1_eq (7 + 3/10) 73 (by norm_num) (by norm_num)
    rw [hround, clamp_eval (by norm_num) (by norm_num)]
    norm_num
  have s2 : sentimentBasedScoring "good stable risky" = 76/10 := by
    simp only [sentimentBasedScoring, hp2, hq2, hr2]
    rw [if_pos (by norm_num : (1:ℕ) < 2)]
    have hmin : min (((2:ℕ):ℚ) * (3/10)) 2 = 6/10 := by
      have e : (((2:ℕ):ℚ)) * (3/10) = 6/10 := by push_cast; ring
      rw [e, min_eq_left (by norm_num)]
    rw [hmin]
    have hround := @pyRound1_eq (7 + 6/10) 76 (by norm_num) (by norm_num)
    rw [hround, clamp_eval (by norm_num) (by norm_num)]
    norm_num
  rw [s1] at h1
  rw [s2] at h2
  rw [← h1] at h2
  norm_num at h2

/-- C5 amended: when no pattern matches, the fallback counts which lexicon
words are present (as substrings, once each); strictly more positives than
negatives give 7.0 + min(0.3·pos, 2.0), strictly more negatives give
4.0 − min(0.3·neg, 2.0), a tie gives 5.5 + 0.2·neutral; the result is
rounded to one decimal and clamped to [1, 10]. -/
theorem C5_amended_presence_based_formula (t : String) :
    sentimentBasedScoring t =
      sentimentHeuristicSpec (countPresent positiveWords (toLowerChars t.data))
        (countPresent negativeWords (toLowerChars t.data))
        (countPresent neutralWords (toLowerChars t.data)) ∧
    1 ≤ sentimentBasedScoring t ∧ sentimentBasedScoring t ≤ 10 := by
  refine ⟨rfl, ?_, ?_⟩
  · simp only [sentimentBasedScoring]
    exact le_max_left 1 _
  · simp only [sentimentBasedScoring]
    exact max_le (by norm_num) (min_le_left _ _)

/-- C2 fails as stated: on failure branches the code attaches scores of
0.0, outside [1.0, 10.0].  The best-country placeholder of
`_extract_best_country` for a leader result without a final recommendation
carries composite_score 0.0, and the failure dictionary of
`_analyze_country_experts` carries overall_score 0.0. -/
theorem C2_counterexample_zero_scores :
    getCompositeScore (extractBestCountry { status := "success" }) = 0 ∧
    ¬ (1 ≤ getCompositeScore (extractBestCountry { status := "success" })) ∧
    (countryExpertsFailureResult "expert coordination failed" "Ghana" "Cocoa Beans").overallScore
      = 0 ∧
    ¬ (1 ≤ (countryExpertsFailureResult "expert coordination failed" "Ghana"
        "Cocoa Beans").overallScore) := by
  refine ⟨rfl, by norm_num [getCompositeScore, extractBestCountry], rfl,
    by norm_num [countryExpertsFailureResult]⟩

theorem scoreFromPattern_bounds {patAt : List Char → Option (List Char)}
    {low : List Char} {v : ℚ} (h : scoreFromPattern patAt low = some v) :
    1 ≤ v ∧ v ≤ 10 := by
  cases hf : findFirstCapture patAt low with
  | none =>
      simp only [scoreFromPattern, hf] at h
      exact Option.noConfusion h
  | some cap =>
      simp only [scoreFromPattern, hf] at h
      split at h
      · rename_i hc
        injection h with hv
        rw [← hv]
        constructor
        · have := le_pyRound 1 (show ((1:ℤ):ℚ) ≤ parseCapture cap by exact_mod_cast hc.1)
          exact_mod_cast this
        · have := pyRound_le 1 (show parseCapture cap ≤ ((10:ℤ):ℚ) by exact_mod_cast hc.2)
          exact_mod_cast this
      · exact Option.noConfusion h

theorem sentimentBasedScoring_bounds (t : String) :
    1 ≤ sentimentBasedScoring t ∧ sentimentBasedScoring t ≤ 10 :=
  ⟨(C5_amended_presence_based_formula t).2.1, (C5_amended_presence_based_formula t).2.2⟩

theorem extractExpertScore_bounds (t : String) :
    1 ≤ extractExpertScore t ∧ extractExpertScore t ≤ 10 := by
  simp only [extractExpertScore]
  cases h1 : scoreFromPattern matchScoreAt (toLowerChars t.data) with
  | some v => exact scoreFromPattern_bounds h1
  | none =>
      cases h2 : scoreFromPattern matchOutOf10At (toLowerChars t.data) with
      | some v => exact scoreFromPattern_bounds h2
      | none =>
          cases h3 : scoreFromPattern matchRatingAt (toLowerChars t.data) with
          | some v => exact scoreFromPattern_bounds h3
          | none =>
              cases h4 : scoreFromPattern matchPointsAt (toLowerChars t.data) with
              | some v => exact scoreFromPattern_bounds h4
              | none => exact sentimentBasedScoring_bounds t

theorem fieldToWeight_nonneg {w : ScoringWeights}
    (hw : 0 ≤ w.profitability ∧ 0 ≤ w.stability ∧ 0 ≤ w.eco_friendly)
    {f : String} {wt : ℚ} (h : fieldToWeight w f = some wt) : 0 ≤ wt := by
  simp only [fieldToWeight] at h
  split_ifs at h <;>
    simp only [Option.some.injEq] at h <;>
    subst h <;>
    tauto

theorem calcFold_bounds {w : ScoringWeights}
    (hw : 0 ≤ w.profitability ∧ 0 ≤ w.stability ∧ 0 ≤ w.eco_friendly) :
    ∀ (results : List (String × ExpertResult)),
      (∀ fr ∈ results, 1 ≤ getExpertScore fr.2 ∧ getExpertScore fr.2 ≤ 10) →
      ∀ acc : ℚ × ℚ, 0 ≤ acc.2 → acc.2 ≤ acc.1 → acc.1 ≤ acc.2 * 10 →
        0 ≤ (results.foldl
          (fun (acc : ℚ × ℚ) fr =>
            match fieldToWeight w fr.1 with
            | some wt => (acc.1 + getExpertScore fr.2 * wt, acc.2 + wt)
            | none => acc) acc).2 ∧
        (results.foldl
          (fun (acc : ℚ × ℚ) fr =>
            match fieldToWeight w fr.1 with
            | some wt => (acc.1 + getExpertScore fr.2 * wt, acc.2 + wt)
            | none => acc) acc).2 ≤
        (results.foldl
          (fun (acc : ℚ × ℚ) fr =>
            match fieldToWeight w fr.1 with
            | some wt => (acc.1 + getExpertScore fr.2 * wt, acc.2 + wt)
            | none => acc) acc).1 ∧
        (results.foldl
          (fun (acc : ℚ × ℚ) fr =>
            match fieldToWeight w fr.1 with
            | some wt => (acc.1 + getExpertScore fr.2 * wt, acc.2 + wt)
            | none => acc) acc).1 ≤
        (results.foldl
          (fun (acc : ℚ × ℚ) fr =>
            match fieldToWeight w fr.1 with
            | some wt => (acc.1 + getExpertScore fr.2 * wt, acc.2 + wt)
            | none => acc) acc).2 * 10 := by
  intro results
  induction results with
  | nil => intro _ acc h0 h1 h2; exact ⟨h0, h1, h2⟩
  | cons fr rest ih =>
      intro hres acc h0 h1 h2
      have hrest : ∀ fq ∈ rest, 1 ≤ getExpertScore fq.2 ∧ getExpertScore fq.2 ≤ 10 :=
        fun fq hfq => hres fq (List.mem_cons_of_mem fr hfq)
      simp only [List.foldl_cons]
      cases hft : fieldToWeight w fr.1 with
      | none => exact ih hrest acc h0 h1 h2
      | some wt =>
          have hwt : 0 ≤ wt := fieldToWeight_nonneg hw hft
          have hs := hres fr (List.mem_cons_self fr rest)
          apply ih hrest
          · simpa using add_nonneg h0 hwt
          · have hws : wt ≤ getExpertScore fr.2 * wt := by nlinarith [hs.1]
            simp only
            linarith
          · have hws : getExpertScore fr.2 * wt ≤ 10 * wt := by nlinarith [hs.2]
            simp only
            linarith

/-- C2 amended: every score the scoring paths actually compute lies in
[1.0, 10.0] — each extracted expert score, each sentiment-fallback score,
and each composite country score formed from expert results under
nonnegative weights — while the placeholder overall/composite scores that
failure branches attach are the out-of-range constant 0.0 (see the
counterexample). -/
theorem C2_amended_computed_scores_in_range (t : String) (w : ScoringWeights)
    (hw : 0 ≤ w.profitability ∧ 0 ≤ w.stability ∧ 0 ≤ w.eco_friendly)
    (results : List (String × ExpertResult))
    (hres : ∀ fr ∈ results, 1 ≤ getExpertScore fr.2 ∧ getExpertScore fr.2 ≤ 10) :
    (1 ≤ extractExpertScore t ∧ extractExpertScore t ≤ 10) ∧
    (1 ≤ sentimentBasedScoring t ∧ sentimentBasedScoring t ≤ 10) ∧
    (1 ≤ calculateCountryScore w results ∧ calculateCountryScore w results ≤ 10) := by
  refine ⟨extractExpertScore_bounds t, sentimentBasedScoring_bounds t, ?_⟩
  have hb := calcFold_bounds hw results hres (0, 0) le_rfl le_rfl (by norm_num)
  set acc := results.foldl
    (fun (acc : ℚ × ℚ) fr =>
      match fieldToWeight w fr.1 with
      | some wt => (acc.1 + getExpertScore fr.2 * wt, acc.2 + wt)
      | none => acc) (0, 0) with hacc
  have hmean : 1 ≤ (if 0 < acc.2 then acc.1 / acc.2 else 5) ∧
      (if 0 < acc.2 then acc.1 / acc.2 else 5) ≤ 10 := by
    split
    · rename_i hpos
      constructor
      · rw [le_div_iff₀ hpos]
        linarith [hb.2.1]
      · rw [div_le_iff₀ hpos]
        linarith [hb.2.2]
    · norm_num
  constructor
  · have := le_pyRound 2 (show ((1:ℤ):ℚ) ≤ (if 0 < acc.2 then acc.1 / acc.2 else 5) by
      exact_mod_cast hmean.1)
    simp only [calculateCountryScore, ← hacc]
    exact_mod_cast this
  · have := pyRound_le 2 (show (if 0 < acc.2 then acc.1 / acc.2 else 5) ≤ ((10:ℤ):ℚ) by
      exact_mod_cast hmean.2)
    simp only [calculateCountryScore, ← hacc]
    exact_mod_cast this

theorem C2_amended_computed_scores_in_range_witness :
    (1 ≤ extractExpertScore "steady supply" ∧ extractExpertScore "steady supply" ≤ 10) ∧
    (1 ≤ sentimentBasedScoring "steady supply" ∧ sentimentBasedScoring "steady supply" ≤ 10) ∧
    (1 ≤ calculateCountryScore (defaultScoringWeights "balanced")
        [("profitability", { expertScore? := some 8 })] ∧
      calculateCountryScore (defaultScoringWeights "balanced")
        [("profitability", { expertScore? := some 8 })] ≤ 10) :=
  C2_amended_computed_scores_in_range "steady supply" (defaultScoringWeights "balanced")
    (by
      simp only [defaultScoringWeights, String.reduceEq, reduceIte]
      norm_num)
    [("profitability", { expertScore? := some 8 })]
    (by
      intro fr hfr
      rw [List.mem_singleton] at hfr
      subst hfr
      norm_num [getExpertScore])

end Autonexus

